import Mathlib

/-!
Shallow embedding of the greetd orchestrator (`src/greetd/src/context.rs`)
and the parts of its collaborators that the spec describes
(`crate::session`, `crate::vt`, `crate::scrambler`, which are not part of
the two provided source files and are therefore modelled from the spec).

The Rust code is single-threaded and event-driven: each operation on
`Context` runs to completion. We embed each operation as a pure function
from the context state, an environment describing the outcomes of
external calls (process launches, terminal-mode switches, forks), and —
where relevant — a current monotonic time in milliseconds, to an outcome,
a new state, the remaining environment and a trace of side effects.

`std::process::exit` and panics (`unwrap` / `expect` / `unreachable!`)
never return, so an operation's outcome is one of: a normal `Result`
value (`ok` / `err`), a process exit with a status, or a panic.
-/

namespace Greetd

/-- Terminal display mode, modelled from the spec: "switches the active
virtual terminal between text and graphical/session mode"
(`crate::vt`, `vt::Mode::Text` in the source). -/
inductive Mode where
  | Text
  | Graphics
  deriving Repr, DecidableEq

/-- Modelled from the spec: a Child Handle ("represents a running OS
process under supervision. Attributes: owning process id ...; confirm
ownership of a given process id"). This is `crate::session::SessionChild`,
whose definition is not among the provided source files. -/
structure SessionChild where
  pid : Nat
  deriving Repr, DecidableEq

/-- Modelled from the spec: "confirm ownership of a given process id
(used when reaping)" — `SessionChild::owns_pid`. -/
def SessionChild.owns_pid (c : SessionChild) (p : Nat) : Bool :=
  c.pid == p

/-- Modelled from the spec: a Pending Session ("a login request accepted
but not yet launched ... target user identity, one-shot password
material, command vector, environment mapping, target terminal number,
and a monotonic request-accepted-at timestamp used to measure elapsed
escalation time"). This is `crate::session::Session`, whose definition is
not among the provided source files. `created` is the monotonic
acceptance timestamp, in milliseconds. -/
structure Session where
  svc : String
  conv : String
  user : String
  password : String
  cmd : List String
  sessionEnv : List (String × String)
  vt : Nat
  created : Nat
  deriving Repr, DecidableEq

/-- Modelled from the spec: elapsed time since the Pending Session was
accepted (`Session::elapsed`), in milliseconds, at monotonic time `now`. -/
def Session.elapsed (s : Session) (now : Nat) : Nat :=
  now - s.created

/-- Modelled from the spec: "password material must be actively
overwritten ... implement via an explicit zeroing pass over the owned
buffer" (`crate::scrambler::Scrambler::scramble`). The buffer keeps its
length but every byte of the secret is replaced. -/
def scramble (s : String) : String :=
  String.mk (s.data.map (fun _ => Char.ofNat 0))

/-- Error values an orchestrator operation can return to its caller.
The Rust code returns `Box<dyn Error>` built from `io::Error` messages;
we distinguish them by kind. -/
inductive Err where
  | alreadyActive
  | greeterNotActive
  | sessionAlreadyActive
  | launchFailure (msg : String)
  | vtFailure
  | forkFailure
  deriving Repr, DecidableEq

/-- How a call into the orchestrator finishes: a normal return
(`ok` / `err`), a process exit via `std::process::exit`, or a panic via
`unwrap` / `expect` / `unreachable!`. -/
inductive Outcome (α : Type) where
  | ok (a : α)
  | err (e : Err)
  | exited (status : Nat)
  | panicked (msg : String)
  deriving Repr, DecidableEq

/-- Observable side effects of an operation, in order of occurrence. -/
inductive Effect where
  | log (msg : String)
  | termSignal (pid : Nat)
  | killSignal (pid : Nat)
  | shooSignal (pid : Nat)
  | setMode (m : Mode)
  | setAlarm (secs : Nat)
  | forkExec (cmd : String)
  deriving Repr, DecidableEq

/-- Outcomes of the external calls an operation may make, as streams
consumed in call order; an exhausted stream means the call succeeds
(the default, healthy world). `newResults` feeds `Session::new`,
`startResults` feeds `Session::start`, `vtResults` feeds `vt::set_mode`,
and `forkResults` feeds `fork`. -/
structure Env where
  newResults : List Bool
  startResults : List (Except String SessionChild)
  vtResults : List Bool
  forkResults : List Bool
  deriving Repr

/-- The all-success environment. -/
def Env.healthy : Env := ⟨[], [], [], []⟩

def popBool (l : List Bool) : Bool × List Bool :=
  match l with
  | [] => (true, [])
  | b :: r => (b, r)

def popStart (l : List (Except String SessionChild)) :
    Except String SessionChild × List (Except String SessionChild) :=
  match l with
  | [] => (.ok ⟨1⟩, [])
  | x :: r => (x, r)

/-- Modelled from the spec: `Session::new` — builds a pending-session
descriptor; it is fallible in the source (`Session::new(..)?`). -/
def sessionNew (svc conv user password : String) (cmd : List String)
    (sessionEnv : List (String × String)) (vt now : Nat) (e : Env) :
    Except String Session × Env :=
  let (ok, rest) := popBool e.newResults
  if ok then
    (.ok ⟨svc, conv, user, password, cmd, sessionEnv, vt, now⟩,
      { e with newResults := rest })
  else
    (.error "session construction failed", { e with newResults := rest })

/-- Modelled from the spec: `Session::start` — launches the pending
session, producing a live child handle or a launch error. -/
def sessionStart (_s : Session) (e : Env) :
    Except String SessionChild × Env :=
  let (r, rest) := popStart e.startResults
  (r, { e with startResults := rest })

/-- Modelled from the spec: `vt::set_mode` — switches the terminal mode;
fallible (`vt::set_mode(vt::Mode::Text)?`). On success the mode switch is
recorded as an effect. -/
def vtSetMode (m : Mode) (e : Env) : Bool × Env × List Effect :=
  let (ok, rest) := popBool e.vtResults
  if ok then (true, { e with vtResults := rest }, [.setMode m])
  else (false, { e with vtResults := rest }, [])

/-- The orchestrator state, from `struct Context` in
`src/greetd/src/context.rs`: optional session handle, optional greeter
handle, optional pending session, plus immutable configuration. -/
structure Context where
  session : Option SessionChild
  greeter : Option SessionChild
  pending_session : Option Session
  greeter_bin : String
  greeter_user : String
  vt : Nat
  deriving Repr, DecidableEq

/-- `Context::new`. -/
def Context.new (greeter_bin greeter_user : String) (vt : Nat) : Context :=
  ⟨none, none, none, greeter_bin, greeter_user, vt⟩

/-- Result of an orchestrator operation: outcome, new state, remaining
environment, side-effect trace. -/
structure StepResult (α : Type) where
  out : Outcome α
  ctx : Context
  env : Env
  effects : List Effect
  deriving Repr

/-- `Context::greet` — start a greeter session. Fails with
`AlreadyActive` if a greeter handle exists; otherwise builds a pending
session for the greeter command and starts it immediately, storing the
resulting handle. -/
def Context.greet (ctx : Context) (env : Env) (now : Nat) :
    StepResult Unit :=
  if ctx.greeter.isSome then
    ⟨.err .alreadyActive, ctx, env, [.log "greeter session already active"]⟩
  else
    match sessionNew "greeter" "user" ctx.greeter_user ""
        [ctx.greeter_bin] [] ctx.vt now env with
    | (.error msg, env1) => ⟨.err (.launchFailure msg), ctx, env1, []⟩
    | (.ok pending, env1) =>
      match sessionStart pending env1 with
      | (.error msg, env2) => ⟨.err (.launchFailure msg), ctx, env2, []⟩
      | (.ok child, env2) =>
        ⟨.ok (), { ctx with greeter := some child }, env2, []⟩

/-- Terminal selection for a login request (`greet_proto::VtSelection`). -/
inductive VtSelection where
  | Current
  | Vt (vt : Nat)
  deriving Repr, DecidableEq

/-- `Context::login` — start a login session. The Rust function takes
`mut password: String` by value; the final contents of that buffer when
the call returns are exposed as the `String` component of the result, so
that scrubbing (or its absence) is observable. -/
def Context.login (ctx : Context) (env : Env) (now : Nat)
    (username password : String) (cmd : List String)
    (provided_env : List (String × String)) (vtSel : VtSelection) :
    StepResult Unit × String :=
  if !ctx.greeter.isSome then
    (⟨.err .greeterNotActive, ctx, env,
      [.log "login request not valid when greeter is not active"]⟩, password)
  else if ctx.session.isSome then
    (⟨.err .sessionAlreadyActive, ctx, env,
      [.log "login session already active"]⟩, password)
  else
    let vtNum := match vtSel with
      | .Current => ctx.vt
      | .Vt v => v
    match sessionNew "login" "user" username password cmd provided_env
        vtNum now env with
    | (.error msg, env1) => (⟨.err (.launchFailure msg), ctx, env1, []⟩, password)
    | (.ok pending, env1) =>
      (⟨.ok (), { ctx with pending_session := some pending }, env1,
        [.setAlarm 5]⟩, scramble password)

/-- Shutdown action (`greet_proto::ShutdownAction`). -/
inductive ShutdownAction where
  | Poweroff
  | Reboot
  | Exit
  deriving Repr, DecidableEq

/-- `Context::terminate` — shoo the session handle and the greeter handle
if present, switch the terminal to text mode, and exit the process with
status 0. If the terminal-mode switch fails, the error propagates as a
normal return instead (`vt::set_mode(vt::Mode::Text)?`). -/
def Context.terminate (ctx : Context) (env : Env) : StepResult Unit :=
  let (sessEffs, ctx1) :=
    match ctx.session with
    | some s => ([Effect.shooSignal s.pid], { ctx with session := none })
    | none => ([], ctx)
  let (greetEffs, ctx2) :=
    match ctx1.greeter with
    | some g => ([Effect.shooSignal g.pid], { ctx1 with greeter := none })
    | none => ([], ctx1)
  match vtSetMode .Text env with
  | (true, env1, vtEffs) =>
    ⟨.exited 0, ctx2, env1,
      sessEffs ++ greetEffs ++ vtEffs ++ [.log "terminating"]⟩
  | (false, env1, vtEffs) =>
    ⟨.err .vtFailure, ctx2, env1, sessEffs ++ greetEffs ++ vtEffs⟩

/-- `Context::shutdown` — validate, then either fork/exec a shell
shutdown command (poweroff/reboot) or, for `Exit`, call `terminate` and
`unwrap()` the result (a returned error panics; a normal `Ok` return
would hit `unreachable!()`). -/
def Context.shutdown (ctx : Context) (env : Env)
    (action : ShutdownAction) : StepResult Unit :=
  if !ctx.greeter.isSome || ctx.session.isSome then
    ⟨.err .greeterNotActive, ctx, env,
      [.log "shutdown request not valid when greeter is not active"]⟩
  else
    match action with
    | .Exit =>
      let r := ctx.terminate env
      match r.out with
      | .err _ => ⟨.panicked "called unwrap on an Err value", r.ctx, r.env, r.effects⟩
      | .ok _ => ⟨.panicked "internal error: entered unreachable code", r.ctx, r.env, r.effects⟩
      | o => ⟨o, r.ctx, r.env, r.effects⟩
    | a =>
      let cmd := match a with
        | .Poweroff => "poweroff"
        | _ => "reboot"
      let (ok, rest) := popBool env.forkResults
      let env1 := { env with forkResults := rest }
      if ok then
        ⟨.ok (), ctx, env1, [.forkExec cmd]⟩
      else
        ⟨.err .forkFailure, ctx, env1, []⟩

/-- `Context::alarm` — notification of SIGALRM. If a pending session was
taken and a greeter handle exists: kill the greeter when more than 10
seconds have elapsed since the pending session was accepted, otherwise
send it a graceful terminate; restore both handles and re-arm the alarm
for 1 second. If there is a pending session but no greeter, start the
pending session now; on launch failure switch the terminal to text mode
and return the error (if the mode switch itself fails, that error is
returned instead). With no pending session the tick is a no-op.
`now` is the current monotonic time in milliseconds; the 10-second
cutoff is `Duration::from_secs(10)` = 10000 ms. -/
def Context.alarm (ctx : Context) (env : Env) (now : Nat) :
    StepResult Unit :=
  match ctx.pending_session with
  | none => ⟨.ok (), ctx, env, []⟩
  | some p =>
    let ctx0 := { ctx with pending_session := none }
    match ctx0.greeter with
    | some g =>
      let nudge :=
        if p.elapsed now > 10000 then [Effect.killSignal g.pid]
        else [Effect.termSignal g.pid]
      ⟨.ok (), { ctx0 with greeter := some g, pending_session := some p },
        env, nudge ++ [.setAlarm 1]⟩
    | none =>
      match sessionStart p env with
      | (.ok s, env1) =>
        ⟨.ok (), { ctx0 with session := some s }, env1, []⟩
      | (.error msg, env1) =>
        match vtSetMode .Text env1 with
        | (true, env2, vtEffs) =>
          ⟨.err (.launchFailure msg), ctx0, env2,
            vtEffs ++ [.log "session start failed"]⟩
        | (false, env2, vtEffs) =>
          ⟨.err .vtFailure, ctx0, env2, vtEffs⟩

/-- One result of the non-blocking `waitpid(None, WNOHANG)` call:
an exited or signal-killed child (`Exited` / `Signaled`), a status the
loop ignores (`Continued`, `Stopped`, ...), no pending exits
(`StillAlive`), or an error from the call. -/
inductive WaitResult where
  | exitedChild (pid : Nat)
  | signaledChild (pid : Nat)
  | otherStatus
  | stillAlive
  | waitErr (msg : String)
  deriving Repr, DecidableEq

/-- The body of the `Exited`/`Signaled` arm of `Context::check_children`
for one reaped `pid`. The first component is `none` when the loop
continues with the next `waitpid` call, and `some o` when the function
returns right away with outcome `o` (a launch error, a panic from
`.expect`, or `std::process::exit(1)`). -/
def Context.reapOne (ctx : Context) (env : Env) (now pid : Nat) :
    Option (Outcome Unit) × Context × Env × List Effect :=
  let (stop1, ctx1, env1, effs1) :=
    match ctx.session with
    | some s =>
      if s.owns_pid pid then
        let r := Context.greet { ctx with session := none } env now
        match r.out with
        | .ok _ =>
          (none, r.ctx, r.env, Effect.log "session exited" :: r.effects)
        | _ =>
          (some (Outcome.panicked "unable to start greeter"), r.ctx, r.env,
            Effect.log "session exited" :: r.effects)
      else (none, ctx, env, [])
    | none => (none, ctx, env, [])
  match stop1 with
  | some o => (some o, ctx1, env1, effs1)
  | none =>
    match ctx1.greeter with
    | some g =>
      if g.owns_pid pid then
        let ctx2 := { ctx1 with greeter := none }
        match ctx2.pending_session with
        | some pending =>
          let ctx3 := { ctx2 with pending_session := none }
          match sessionStart pending env1 with
          | (.ok s, env2) =>
            (none, { ctx3 with session := some s }, env2,
              effs1 ++ [.log "starting pending session"])
          | (.error msg, env2) =>
            (some (.err (.launchFailure msg)), ctx3, env2,
              effs1 ++ [.log "starting pending session",
                .log "session start failed"])
        | none =>
          if ctx2.session.isNone then
            match vtSetMode .Text env1 with
            | (true, env2, vtEffs) =>
              (some (.exited 1), ctx2, env2, effs1 ++ vtEffs)
            | (false, env2, vtEffs) =>
              (some (.err .vtFailure), ctx2, env2, effs1 ++ vtEffs)
          else (none, ctx2, env1, effs1)
      else (none, ctx1, env1, effs1)
    | none => (none, ctx1, env1, effs1)

/-- The `loop` of `Context::check_children`, driven by the stream of
`waitpid` results; an exhausted stream behaves as `StillAlive` (the OS
guarantees `WNOHANG` eventually reports no pending exits, since the
daemon has finitely many children). The `Nat` component counts the
`waitpid` calls the loop made. -/
def checkChildrenLoop (now : Nat) :
    List WaitResult → Context → Env → StepResult Unit × Nat
  | [], ctx, env => (⟨.ok (), ctx, env, []⟩, 1)
  | w :: rest, ctx, env =>
    match w with
    | .stillAlive => (⟨.ok (), ctx, env, []⟩, 1)
    | .otherStatus =>
      let (r, n) := checkChildrenLoop now rest ctx env
      (r, n + 1)
    | .waitErr _ =>
      let (r, n) := checkChildrenLoop now rest ctx env
      (⟨r.out, r.ctx, r.env, .log "waitpid returned an error" :: r.effects⟩,
        n + 1)
    | .exitedChild pid | .signaledChild pid =>
      match ctx.reapOne env now pid with
      | (some o, ctx1, env1, effs) => (⟨o, ctx1, env1, effs⟩, 1)
      | (none, ctx1, env1, effs) =>
        let (r, n) := checkChildrenLoop now rest ctx1 env1
        (⟨r.out, r.ctx, r.env, effs ++ r.effects⟩, n + 1)

/-- `Context::check_children` — reap exited children until none remain
pending. -/
def Context.check_children (ctx : Context) (env : Env) (now : Nat)
    (waits : List WaitResult) : StepResult Unit :=
  (checkChildrenLoop now waits ctx env).1

/-- Number of `waitpid` calls a `check_children` run performs. -/
def Context.check_children_polls (ctx : Context) (env : Env) (now : Nat)
    (waits : List WaitResult) : Nat :=
  (checkChildrenLoop now waits ctx env).2

/-! Concrete values used when instantiating theorems. -/

/-- A sample pending login session, accepted at monotonic time 0. -/
def sampleSession : Session :=
  ⟨"login", "user", "alice", "", ["/bin/sh"], [], 1, 0⟩

/-- A context in the GreeterWithPending configuration: greeter pid 7,
pending login session, no active session. -/
def ctxGWP : Context :=
  ⟨none, some ⟨7⟩, some sampleSession, "gtkgreet", "greeter", 1⟩

/-- C4: on an alarm tick with both a pending session and a greeter
handle present, the greeter receives a forced kill when more than 10
seconds (10000 ms) have elapsed since the pending session was accepted
and a graceful terminate otherwise; the alarm is re-armed for 1 second,
and the state keeps the same greeter handle and pending session. -/
theorem alarm_escalates_greeter_termination (ctx : Context) (env : Env)
    (now : Nat) (p : Session) (g : SessionChild)
    (hp : ctx.pending_session = some p) (hg : ctx.greeter = some g) :
    (ctx.alarm env now).out = .ok () ∧
    (ctx.alarm env now).ctx.greeter = some g ∧
    (ctx.alarm env now).ctx.pending_session = some p ∧
    (ctx.alarm env now).ctx.session = ctx.session ∧
    (ctx.alarm env now).env = env ∧
    (ctx.alarm env now).effects =
      (if p.elapsed now > 10000 then [Effect.killSignal g.pid]
       else [Effect.termSignal g.pid]) ++ [Effect.setAlarm 1] := by
  simp [Context.alarm, hp, hg]

/-- C4 witness: at 3 elapsed seconds the greeter of `ctxGWP` gets a
graceful terminate; at 20 elapsed seconds it gets a kill; both ticks
re-arm the alarm for 1 second and keep the state. -/
theorem alarm_escalates_greeter_termination_witness :
    ((ctxGWP.alarm Env.healthy 3000).effects =
      [Effect.termSignal 7, Effect.setAlarm 1] ∧
      (ctxGWP.alarm Env.healthy 3000).ctx.pending_session =
        some sampleSession) ∧
    ((ctxGWP.alarm Env.healthy 20000).effects =
      [Effect.killSignal 7, Effect.setAlarm 1] ∧
      (ctxGWP.alarm Env.healthy 20000).ctx.greeter = some ⟨7⟩) := by
  refine ⟨⟨?_, ?_⟩, ⟨?_, ?_⟩⟩
  · have h := alarm_escalates_greeter_termination ctxGWP Env.healthy 3000
      sampleSession ⟨7⟩ (by decide) (by decide)
    rw [h.2.2.2.2.2]; decide
  · exact (alarm_escalates_greeter_termination ctxGWP Env.healthy 3000
      sampleSession ⟨7⟩ (by decide) (by decide)).2.2.1
  · have h := alarm_escalates_greeter_termination ctxGWP Env.healthy 20000
      sampleSession ⟨7⟩ (by decide) (by decide)
    rw [h.2.2.2.2.2]; decide
  · exact (alarm_escalates_greeter_termination ctxGWP Env.healthy 20000
      sampleSession ⟨7⟩ (by decide) (by decide)).2.1

/-- C5: a reap that collects the greeter pid while a pending session
exists clears the greeter handle and starts the pending session within
the same call (no further alarm tick), so it becomes the session
handle. -/
theorem reap_greeter_launches_pending (ctx : Context) (env : Env)
    (now : Nat) (g : SessionChild) (p : Session) (child : SessionChild)
    (tl : List (Except String SessionChild))
    (hg : ctx.greeter = some g) (hp : ctx.pending_session = some p)
    (hs : ctx.session = none)
    (hstart : popStart env.startResults = (Except.ok child, tl)) :
    (ctx.check_children env now [.exitedChild g.pid]).out = .ok () ∧
    (ctx.check_children env now [.exitedChild g.pid]).ctx.greeter = none ∧
    (ctx.check_children env now [.exitedChild g.pid]).ctx.pending_session
      = none ∧
    (ctx.check_children env now [.exitedChild g.pid]).ctx.session
      = some child := by
  simp [Context.check_children, checkChildrenLoop, Context.reapOne, hg, hp,
    hs, SessionChild.owns_pid, sessionStart, hstart]

/-- C5 witness: reaping greeter pid 7 of `ctxGWP` with a launcher that
yields child pid 9 produces a running session with pid 9 in one call. -/
theorem reap_greeter_launches_pending_witness :
    (ctxGWP.check_children ⟨[], [.ok ⟨9⟩], [], []⟩ 0
      [.exitedChild 7]).out = .ok () ∧
    (ctxGWP.check_children ⟨[], [.ok ⟨9⟩], [], []⟩ 0
      [.exitedChild 7]).ctx.session = some ⟨9⟩ :=
  have h := reap_greeter_launches_pending ctxGWP ⟨[], [.ok ⟨9⟩], [], []⟩ 0
    ⟨7⟩ sampleSession ⟨9⟩ [] (by decide) (by decide) (by decide) rfl
  ⟨h.1, h.2.2.2⟩

/-- C7: a reap that collects the greeter pid while neither a pending
session nor a session handle exists switches the terminal to text mode
and exits the process with status 1 (non-zero). -/
theorem reap_greeter_alone_exits_nonzero (ctx : Context) (env : Env)
    (now : Nat) (g : SessionChild) (tlv : List Bool)
    (hg : ctx.greeter = some g) (hp : ctx.pending_session = none)
    (hs : ctx.session = none)
    (hvt : popBool env.vtResults = (true, tlv)) :
    (ctx.check_children env now [.exitedChild g.pid]).out = .exited 1 ∧
    (ctx.check_children env now [.exitedChild g.pid]).effects =
      [Effect.setMode .Text] := by
  simp [Context.check_children, checkChildrenLoop, Context.reapOne, hg, hp,
    hs, SessionChild.owns_pid, vtSetMode, hvt]

/-- C7 witness: a greeter-only context whose greeter pid 7 is reaped
exits with status 1 after switching to text mode. -/
theorem reap_greeter_alone_exits_nonzero_witness :
    ((Context.mk none (some ⟨7⟩) none "gtkgreet" "greeter" 1).check_children
      Env.healthy 0 [.exitedChild 7]).out = .exited 1 ∧
    ((Context.mk none (some ⟨7⟩) none "gtkgreet" "greeter" 1).check_children
      Env.healthy 0 [.exitedChild 7]).effects = [Effect.setMode .Text] :=
  reap_greeter_alone_exits_nonzero
    (Context.mk none (some ⟨7⟩) none "gtkgreet" "greeter" 1)
    Env.healthy 0 ⟨7⟩ [] (by decide) (by decide) (by decide) rfl

/-- C1 counterexample: in the reap path of `check_children`, a pending
session whose launch fails produces the launch error but no text-mode
switch — contradicting the claim that every failed pending-session
launch (alarm path or reap path) switches the terminal to text mode.
Concrete input: greeter pid 7 reaped while a pending session exists and
the launcher fails with "exec failed"; the terminal-mode controller is
healthy, yet no `setMode` effect occurs. -/
theorem reap_launch_failure_skips_text_mode :
    (ctxGWP.check_children ⟨[], [.error "exec failed"], [], []⟩ 0
      [.exitedChild 7]).out = .err (.launchFailure "exec failed") ∧
    Effect.setMode .Text ∉
      (ctxGWP.check_children ⟨[], [.error "exec failed"], [], []⟩ 0
        [.exitedChild 7]).effects := by
  decide

/-- C1 amended: when launching a pending session fails, the alarm path
switches the terminal to text mode (given the switch succeeds) and
returns the launch error, while the reap path returns the launch error
to the caller without switching the terminal mode. -/
theorem pending_launch_failure_paths (ctx : Context) (env : Env)
    (now : Nat) (p : Session) (g : SessionChild) (msg : String)
    (tl : List (Except String SessionChild)) (tlv : List Bool)
    (hp : ctx.pending_session = some p)
    (hstart : popStart env.startResults = (Except.error msg, tl))
    (hvt : popBool env.vtResults = (true, tlv)) :
    (ctx.greeter = none →
      (ctx.alarm env now).out = .err (.launchFailure msg) ∧
      Effect.setMode .Text ∈ (ctx.alarm env now).effects) ∧
    (ctx.greeter = some g → ctx.session = none →
      (ctx.check_children env now [.exitedChild g.pid]).out =
        .err (.launchFailure msg) ∧
      Effect.setMode .Text ∉
        (ctx.check_children env now [.exitedChild g.pid]).effects) := by
  constructor
  · intro hg
    simp [Context.alarm, hp, hg, sessionStart, hstart, vtSetMode, hvt]
  · intro hg hs
    simp [Context.check_children, checkChildrenLoop, Context.reapOne, hp,
      hg, hs, SessionChild.owns_pid, sessionStart, hstart]

/-- C1 amended witness: with a failing launcher, an alarm tick on a
pending session with no greeter sets text mode and errors, while a reap
of greeter pid 7 with the same pending session errors without touching
the terminal mode. -/
theorem pending_launch_failure_paths_witness :
    (((Context.mk none none (some sampleSession) "gtkgreet" "greeter"
        1).alarm ⟨[], [.error "exec failed"], [], []⟩ 0).out =
      .err (.launchFailure "exec failed") ∧
     Effect.setMode .Text ∈
      ((Context.mk none none (some sampleSession) "gtkgreet" "greeter"
        1).alarm ⟨[], [.error "exec failed"], [], []⟩ 0).effects) ∧
    ((ctxGWP.check_children ⟨[], [.error "boom"], [], []⟩ 0
        [.exitedChild 7]).out = .err (.launchFailure "boom") ∧
     Effect.setMode .Text ∉
      (ctxGWP.check_children ⟨[], [.error "boom"], [], []⟩ 0
        [.exitedChild 7]).effects) :=
  ⟨(pending_launch_failure_paths
      (Context.mk none none (some sampleSession) "gtkgreet" "greeter" 1)
      ⟨[], [.error "exec failed"], [], []⟩ 0 sampleSession ⟨7⟩
      "exec failed" [] [] (by decide) rfl rfl).1 rfl,
   (pending_launch_failure_paths ctxGWP ⟨[], [.error "boom"], [], []⟩ 0
      sampleSession ⟨7⟩ "boom" [] [] (by decide) rfl rfl).2
      (by decide) (by decide)⟩

/-- C2 counterexample: a `login` call rejected because no greeter is
active returns with the caller's password buffer holding the original
secret, unscrambled — contradicting the claim that the buffer is
overwritten regardless of success or failure. -/
theorem login_failure_leaves_password_intact :
    ((Context.new "gtkgreet" "greeter" 1).login Env.healthy 0 "alice"
      "hunter2" ["/bin/sh"] [] .Current).2 = "hunter2" ∧
    ((Context.new "gtkgreet" "greeter" 1).login Env.healthy 0 "alice"
      "hunter2" ["/bin/sh"] [] .Current).1.out = .err .greeterNotActive ∧
    "hunter2" ≠ scramble "hunter2" := by
  decide

/-- C2 amended: a `login` call that returns success has scrambled the
password buffer by the time it returns; a call that returns an error
(validation rejection or pending-session construction failure) returns
the buffer unmodified. -/
theorem login_scrambles_password_on_success (ctx : Context) (env : Env)
    (now : Nat) (username password : String) (cmd : List String)
    (penv : List (String × String)) (sel : VtSelection) :
    ((ctx.login env now username password cmd penv sel).1.out = .ok () →
      (ctx.login env now username password cmd penv sel).2 =
        scramble password) ∧
    (∀ e, (ctx.login env now username password cmd penv sel).1.out =
        .err e →
      (ctx.login env now username password cmd penv sel).2 = password) := by
  unfold Context.login
  split
  · simp
  · split
    · simp
    · split
      next =>
        rcases hsn : sessionNew "login" "user" username password cmd penv
          ctx.vt now env with ⟨r, env1⟩
        cases r <;> simp [hsn]
      next v =>
        rcases hsn : sessionNew "login" "user" username password cmd penv
          v now env with ⟨r, env1⟩
        cases r <;> simp [hsn]

/-- C2 amended witness: a successful login overwrites the buffer that
held "pw" with its scrambled form, and a rejected login (no greeter)
returns the buffer still holding "pw". -/
theorem login_scrambles_password_on_success_witness :
    ((Context.mk none (some ⟨7⟩) none "gtkgreet" "greeter" 1).login
      Env.healthy 0 "alice" "pw" ["/bin/sh"] [] .Current).2 =
        scramble "pw" ∧
    ((Context.new "gtkgreet" "greeter" 1).login Env.healthy 0 "alice"
      "pw" ["/bin/sh"] [] .Current).2 = "pw" :=
  ⟨(login_scrambles_password_on_success
      (Context.mk none (some ⟨7⟩) none "gtkgreet" "greeter" 1)
      Env.healthy 0 "alice" "pw" ["/bin/sh"] [] .Current).1 (by decide),
   (login_scrambles_password_on_success
      (Context.new "gtkgreet" "greeter" 1)
      Env.healthy 0 "alice" "pw" ["/bin/sh"] [] .Current).2
      .greeterNotActive (by decide)⟩

/-- C3 counterexample: when the terminal-mode switch fails, `terminate`
returns the error to its caller as a normal return — it neither exits
with status 0 nor is it true that it never returns. Concrete input: a
session (pid 3) and greeter (pid 4) both present, terminal-mode
controller failing. -/
theorem terminate_returns_on_vt_failure :
    ((Context.mk (some ⟨3⟩) (some ⟨4⟩) none "gtkgreet" "greeter"
      1).terminate ⟨[], [], [false], []⟩).out = .err .vtFailure ∧
    ((Context.mk (some ⟨3⟩) (some ⟨4⟩) none "gtkgreet" "greeter"
      1).terminate ⟨[], [], [false], []⟩).out ≠ .exited 0 := by
  decide

/-- C3 amended: `terminate` sends a fire-and-forget shoo to the session
handle and the greeter handle when present; if the text-mode switch
succeeds it exits the process with status 0 (never returning), and
`request-shutdown(exit)` does the same; if the text-mode switch fails
the error is returned to the caller (the shoos having been sent). -/
theorem terminate_shoos_and_exits (ctx : Context) (env : Env)
    (tlv : List Bool) :
    (popBool env.vtResults = (true, tlv) →
      (ctx.terminate env).out = .exited 0 ∧
      Effect.setMode .Text ∈ (ctx.terminate env).effects ∧
      (∀ s, ctx.session = some s →
        Effect.shooSignal s.pid ∈ (ctx.terminate env).effects) ∧
      (∀ g, ctx.greeter = some g →
        Effect.shooSignal g.pid ∈ (ctx.terminate env).effects)) ∧
    (popBool env.vtResults = (false, tlv) →
      (ctx.terminate env).out = .err .vtFailure ∧
      (∀ s, ctx.session = some s →
        Effect.shooSignal s.pid ∈ (ctx.terminate env).effects) ∧
      (∀ g, ctx.greeter = some g →
        Effect.shooSignal g.pid ∈ (ctx.terminate env).effects)) ∧
    (popBool env.vtResults = (true, tlv) → ctx.greeter.isSome = true →
      ctx.session.isSome = false →
      (ctx.shutdown env .Exit).out = .exited 0) := by
  refine ⟨fun hvt => ?_, fun hvt => ?_, fun hvt hg hs => ?_⟩
  · rcases hcs : ctx.session with _ | s <;>
      rcases hcg : ctx.greeter with _ | g <;>
      simp [Context.terminate, hcs, hcg, vtSetMode, hvt]
  · rcases hcs : ctx.session with _ | s <;>
      rcases hcg : ctx.greeter with _ | g <;>
      simp [Context.terminate, hcs, hcg, vtSetMode, hvt]
  · rcases hcs : ctx.session with _ | s
    · rcases hcg : ctx.greeter with _ | g
      · simp [hcg] at hg
      · simp [Context.shutdown, Context.terminate, hcs, hcg, vtSetMode, hvt]
    · simp [hcs] at hs

/-- C3 amended witness: with a working terminal-mode controller, a
context holding session pid 3 and greeter pid 4 exits with status 0 on
terminate and both children are shooed; a greeter-only context exits
with status 0 on `request-shutdown(exit)`. -/
theorem terminate_shoos_and_exits_witness :
    (((Context.mk (some ⟨3⟩) (some ⟨4⟩) none "gtkgreet" "greeter"
        1).terminate Env.healthy).out = .exited 0 ∧
     Effect.shooSignal 3 ∈
      ((Context.mk (some ⟨3⟩) (some ⟨4⟩) none "gtkgreet" "greeter"
        1).terminate Env.healthy).effects ∧
     Effect.shooSignal 4 ∈
      ((Context.mk (some ⟨3⟩) (some ⟨4⟩) none "gtkgreet" "greeter"
        1).terminate Env.healthy).effects) ∧
    ((Context.mk none (some ⟨4⟩) none "gtkgreet" "greeter" 1).shutdown
      Env.healthy .Exit).out = .exited 0 :=
  have h := terminate_shoos_and_exits
    (Context.mk (some ⟨3⟩) (some ⟨4⟩) none "gtkgreet" "greeter" 1)
    Env.healthy []
  have h2 := terminate_shoos_and_exits
    (Context.mk none (some ⟨4⟩) none "gtkgreet" "greeter" 1)
    Env.healthy []
  ⟨⟨(h.1 rfl).1, (h.1 rfl).2.2.1 ⟨3⟩ rfl, (h.1 rfl).2.2.2 ⟨4⟩ rfl⟩,
   h2.2.2 rfl rfl rfl⟩

/-- C6: a reap that collects the session pid clears the session handle
and immediately re-invokes `greet`: when the fresh greeter launches, it
becomes the stored greeter handle; when the launch fails, the daemon
panics ("unable to start greeter") — fatal and surfaced, not retried. -/
theorem reap_session_restarts_greeter (ctx : Context) (env : Env)
    (now : Nat) (s : SessionChild) (tl1 : List Bool)
    (hs : ctx.session = some s) (hg : ctx.greeter = none)
    (hnew : popBool env.newResults = (true, tl1)) :
    (∀ child tl2, popStart env.startResults = (Except.ok child, tl2) →
      child.pid ≠ s.pid →
      (ctx.check_children env now [.exitedChild s.pid]).out = .ok () ∧
      (ctx.check_children env now [.exitedChild s.pid]).ctx.session
        = none ∧
      (ctx.check_children env now [.exitedChild s.pid]).ctx.greeter
        = some child) ∧
    (∀ msg tl2, popStart env.startResults = (Except.error msg, tl2) →
      (ctx.check_children env now [.exitedChild s.pid]).out =
        .panicked "unable to start greeter") := by
  constructor
  · intro child tl2 hstart hne
    simp [Context.check_children, checkChildrenLoop, Context.reapOne,
      Context.greet, hs, hg, SessionChild.owns_pid, sessionNew, hnew,
      sessionStart, hstart, hne]
  · intro msg tl2 hstart
    simp [Context.check_children, checkChildrenLoop, Context.reapOne,
      Context.greet, hs, hg, SessionChild.owns_pid, sessionNew, hnew,
      sessionStart, hstart]

/-- C6 witness: reaping session pid 3 restarts the greeter as pid 9
when the launcher works, and panics when the launcher fails. -/
theorem reap_session_restarts_greeter_witness :
    (((Context.mk (some ⟨3⟩) none none "gtkgreet" "greeter"
        1).check_children ⟨[], [.ok ⟨9⟩], [], []⟩ 0
        [.exitedChild 3]).ctx.greeter = some ⟨9⟩) ∧
    (((Context.mk (some ⟨3⟩) none none "gtkgreet" "greeter"
        1).check_children ⟨[], [.error "boom"], [], []⟩ 0
        [.exitedChild 3]).out = .panicked "unable to start greeter") :=
  ⟨((reap_session_restarts_greeter
      (Context.mk (some ⟨3⟩) none none "gtkgreet" "greeter" 1)
      ⟨[], [.ok ⟨9⟩], [], []⟩ 0 ⟨3⟩ [] rfl rfl rfl).1 ⟨9⟩ [] rfl
      (by decide)).2.2,
   (reap_session_restarts_greeter
      (Context.mk (some ⟨3⟩) none none "gtkgreet" "greeter" 1)
      ⟨[], [.error "boom"], [], []⟩ 0 ⟨3⟩ [] rfl rfl rfl).2 "boom" []
      rfl⟩

/-- C8: the request-protocol validation errors are local rejections.
`greet` with a greeter active returns `AlreadyActive`; `login` with no
greeter returns `GreeterNotActive` and with a greeter but a session
active returns `SessionAlreadyActive`; `shutdown` with no greeter or
with a session active returns `GreeterNotActive`. In every case the
outcome is a normal error return (so the daemon keeps running: no
`exited`, no `panicked`), and the context state and the external world
are unchanged. -/
theorem validation_errors_reject_locally (ctx : Context) (env : Env)
    (now : Nat) (username password : String) (cmd : List String)
    (penv : List (String × String)) (sel : VtSelection)
    (action : ShutdownAction) :
    (ctx.greeter.isSome = true →
      ctx.greet env now = ⟨.err .alreadyActive, ctx, env,
        [.log "greeter session already active"]⟩) ∧
    (ctx.greeter = none →
      (ctx.login env now username password cmd penv sel).1.out =
        .err .greeterNotActive ∧
      (ctx.login env now username password cmd penv sel).1.ctx = ctx ∧
      (ctx.login env now username password cmd penv sel).1.env = env) ∧
    (ctx.greeter.isSome = true → ctx.session.isSome = true →
      (ctx.login env now username password cmd penv sel).1.out =
        .err .sessionAlreadyActive ∧
      (ctx.login env now username password cmd penv sel).1.ctx = ctx ∧
      (ctx.login env now username password cmd penv sel).1.env = env) ∧
    ((ctx.greeter = none ∨ ctx.session.isSome = true) →
      (ctx.shutdown env action).out = .err .greeterNotActive ∧
      (ctx.shutdown env action).ctx = ctx ∧
      (ctx.shutdown env action).env = env) := by
  refine ⟨fun hg => ?_, fun hg => ?_, fun hg hs => ?_, fun h => ?_⟩
  · simp [Context.greet, hg]
  · simp [Context.login, hg]
  · simp [Context.login, hg, hs]
  · rcases h with hg | hs
    · simp [Context.shutdown, hg]
    · simp [Context.shutdown, hs]

/-- C8 witness: concrete rejections — `greet` on `ctxGWP` (greeter pid
7 active), `login` on a fresh context (no greeter), `login` on a
context with both greeter and session, and `shutdown` on a context with
an active session — all return the expected errors with state
unchanged. -/
theorem validation_errors_reject_locally_witness :
    ctxGWP.greet Env.healthy 0 = ⟨.err .alreadyActive, ctxGWP,
      Env.healthy, [.log "greeter session already active"]⟩ ∧
    ((Context.new "gtkgreet" "greeter" 1).login Env.healthy 0 "alice"
      "pw" ["/bin/sh"] [] .Current).1.out = .err .greeterNotActive ∧
    ((Context.mk (some ⟨3⟩) (some ⟨4⟩) none "gtkgreet" "greeter"
      1).login Env.healthy 0 "alice" "pw" ["/bin/sh"] []
      .Current).1.out = .err .sessionAlreadyActive ∧
    ((Context.mk (some ⟨3⟩) (some ⟨4⟩) none "gtkgreet" "greeter"
      1).shutdown Env.healthy .Poweroff).out = .err .greeterNotActive :=
  ⟨(validation_errors_reject_locally ctxGWP Env.healthy 0 "alice" "pw"
      ["/bin/sh"] [] .Current .Poweroff).1 rfl,
   ((validation_errors_reject_locally (Context.new "gtkgreet" "greeter"
      1) Env.healthy 0 "alice" "pw" ["/bin/sh"] [] .Current
      .Poweroff).2.1 rfl).1,
   ((validation_errors_reject_locally
      (Context.mk (some ⟨3⟩) (some ⟨4⟩) none "gtkgreet" "greeter" 1)
      Env.healthy 0 "alice" "pw" ["/bin/sh"] [] .Current
      .Poweroff).2.2.1 rfl rfl).1,
   ((validation_errors_reject_locally
      (Context.mk (some ⟨3⟩) (some ⟨4⟩) none "gtkgreet" "greeter" 1)
      Env.healthy 0 "alice" "pw" ["/bin/sh"] [] .Current
      .Poweroff).2.2.2 (Or.inr rfl)).1⟩

/-- Helper: the reap loop makes at most one `waitpid` call per pending
stream entry, plus the final call that reports no pending exits. -/
theorem checkChildrenLoop_polls_le (now : Nat)
    (waits : List WaitResult) :
    ∀ (ctx : Context) (env : Env),
      (checkChildrenLoop now waits ctx env).2 ≤ waits.length + 1 := by
  induction waits with
  | nil => intro ctx env; simp [checkChildrenLoop]
  | cons w rest ih =>
    intro ctx env
    cases w with
    | stillAlive => simp [checkChildrenLoop]
    | otherStatus =>
      have h := ih ctx env
      rcases h2 : checkChildrenLoop now rest ctx env with ⟨r, n⟩
      rw [h2] at h
      simp [checkChildrenLoop, h2]
      omega
    | waitErr msg =>
      have h := ih ctx env
      rcases h2 : checkChildrenLoop now rest ctx env with ⟨r, n⟩
      rw [h2] at h
      simp [checkChildrenLoop, h2]
      omega
    | exitedChild pid =>
      rcases hr : ctx.reapOne env now pid with ⟨stop, ctx1, env1, effs⟩
      cases stop with
      | some o => simp [checkChildrenLoop, hr]
      | none =>
        have h := ih ctx1 env1
        rcases h2 : checkChildrenLoop now rest ctx1 env1 with ⟨r, n⟩
        rw [h2] at h
        simp [checkChildrenLoop, hr, h2]
        omega
    | signaledChild pid =>
      rcases hr : ctx.reapOne env now pid with ⟨stop, ctx1, env1, effs⟩
      cases stop with
      | some o => simp [checkChildrenLoop, hr]
      | none =>
        have h := ih ctx1 env1
        rcases h2 : checkChildrenLoop now rest ctx1 env1 with ⟨r, n⟩
        rw [h2] at h
        simp [checkChildrenLoop, hr, h2]
        omega

/-- C9: the reap loop always terminates and never blocks — it makes at
most one non-blocking `waitpid` call per pending exit plus the final
no-exits-pending call; a `StillAlive` result returns immediately with
no state change; an error from `waitpid` is logged and the loop
continues with the remaining stream instead of aborting. -/
theorem check_children_terminates (ctx : Context) (env : Env)
    (now : Nat) (waits rest : List WaitResult) (msg : String) :
    ctx.check_children_polls env now waits ≤ waits.length + 1 ∧
    ctx.check_children env now (.stillAlive :: rest) =
      ⟨.ok (), ctx, env, []⟩ ∧
    (ctx.check_children env now (.waitErr msg :: rest)).out =
      (ctx.check_children env now rest).out ∧
    (ctx.check_children env now (.waitErr msg :: rest)).ctx =
      (ctx.check_children env now rest).ctx ∧
    (ctx.check_children env now (.waitErr msg :: rest)).effects =
      .log "waitpid returned an error" ::
        (ctx.check_children env now rest).effects := by
  refine ⟨checkChildrenLoop_polls_le now waits ctx env, ?_, ?_⟩
  · simp [Context.check_children, checkChildrenLoop]
  · rcases h2 : checkChildrenLoop now rest ctx env with ⟨r, n⟩
    simp [Context.check_children, checkChildrenLoop, h2]

/-- C10: when `greet` passes its AlreadyActive check but constructing
the greeter pending session fails, or launching it fails, the error is
returned and the orchestrator state is unchanged — no greeter handle is
stored. -/
theorem greet_launch_failure_is_atomic (ctx : Context) (env : Env)
    (now : Nat) (hg : ctx.greeter = none) :
    (∀ tl, popBool env.newResults = (false, tl) →
      (ctx.greet env now).out =
        .err (.launchFailure "session construction failed") ∧
      (ctx.greet env now).ctx = ctx) ∧
    (∀ tl1 msg tl2, popBool env.newResults = (true, tl1) →
      popStart env.startResults = (Except.error msg, tl2) →
      (ctx.greet env now).out = .err (.launchFailure msg) ∧
      (ctx.greet env now).ctx = ctx) := by
  constructor
  · intro tl hnew
    simp [Context.greet, hg, sessionNew, hnew]
  · intro tl1 msg tl2 hnew hstart
    simp [Context.greet, hg, sessionNew, hnew, sessionStart, hstart]

/-- C10 witness: on a fresh context, a failing pending-session
construction and a failing launch each return an error and leave the
context exactly as it was. -/
theorem greet_launch_failure_is_atomic_witness :
    (((Context.new "gtkgreet" "greeter" 1).greet
        ⟨[false], [], [], []⟩ 0).ctx = Context.new "gtkgreet" "greeter" 1) ∧
    (((Context.new "gtkgreet" "greeter" 1).greet
        ⟨[], [.error "exec failed"], [], []⟩ 0).out =
      .err (.launchFailure "exec failed") ∧
     ((Context.new "gtkgreet" "greeter" 1).greet
        ⟨[], [.error "exec failed"], [], []⟩ 0).ctx =
      Context.new "gtkgreet" "greeter" 1) :=
  ⟨((greet_launch_failure_is_atomic (Context.new "gtkgreet" "greeter" 1)
      ⟨[false], [], [], []⟩ 0 rfl).1 [] rfl).2,
   (greet_launch_failure_is_atomic (Context.new "gtkgreet" "greeter" 1)
      ⟨[], [.error "exec failed"], [], []⟩ 0 rfl).2 [] "exec failed"
      [] rfl rfl⟩

end Greetd
